import Mathlib

/-!
Shallow embedding of two instructional Python scripts:

* `kode11.py` — an order checkout flow built on the strategy pattern:
  an `Order` record, payment processors (`CreditCardProcessor`,
  `QrisProcessor`) exposing `process(order) -> bool`, an `EmailNotifier`
  exposing `send(order)`, and a `CheckoutService` coordinator whose
  `run_checkout` delegates to the processor and, on success, marks the
  order paid and calls the notifier once.

* `latihan_mandiri.py` — a student registration validator: rules
  (`SksLimitRule`, `PrerequisiteRule`, `JadwalBentrokRule`) exposing
  `validate(data) -> bool` over a registration-data mapping, and a
  `RegistrationService` coordinator that runs its rules in order,
  short-circuiting on the first failure.

Modelling conventions: Python integers are `Int`; the demo's prices are
whole numbers and no arithmetic is performed on them, so `total_price`
is `Int` as well; string statuses stay `String`.  The registration dict
is embedded as a record holding exactly the keys the rules consult, each
optional so that `dict.get(key, default)` becomes `Option.getD`.
Logging is an output-only effect with no influence on control flow or
data and is not modelled.  Where a claim is about effects (mutation,
invocation counts, call order), the corresponding function is embedded
in an instrumented form: `run_checkout` additionally returns the final
order and the list of orders handed to the notifier, the registration
service has a variant counting rule invocations and a state-passing
variant threading the data mapping through every rule call.
-/

/-- The `Order` dataclass of `kode11.py`: `customer_name`, `total_price`,
and a `status` field defaulting to `"open"`. -/
structure Order where
  customer_name : String
  total_price : Int
  status : String := "open"
deriving DecidableEq, Repr

/-- Constructing an `Order` from the two positional arguments, as the demo
does with `Order("Andi", 500000)`: the `status` field takes its default. -/
def Order.new (customer_name : String) (total_price : Int) : Order :=
  { customer_name := customer_name, total_price := total_price }

/-- `CreditCardProcessor.process`: logs and unconditionally returns `True`. -/
def CreditCardProcessor.process (_order : Order) : Bool :=
  true

/-- `QrisProcessor.process`: logs and unconditionally returns `True`. -/
def QrisProcessor.process (_order : Order) : Bool :=
  true

/-- `EmailNotifier.send`: only logs; it neither returns a value nor changes
the order. -/
def EmailNotifier.send (_order : Order) : Unit :=
  ()

/-- `CheckoutService.run_checkout`, instrumented.  The injected processor is
a boolean function on orders (every provided processor is effect-free on the
order).  The embedding returns, in order: the boolean result of
`run_checkout`, the order as it stands after the call (the one in-place
`order.status = "paid"` assignment made explicit), and the list of orders
passed to the injected notifier's `send`, in call order. -/
def CheckoutService.run_checkout (process : Order → Bool) (order : Order) :
    Bool × Order × List Order :=
  let payment_success := process order
  if payment_success then
    let order1 := { order with status := "paid" }
    (true, order1, [order1])
  else
    (false, order, [])

/-- The registration-data dict of `latihan_mandiri.py`, restricted to the
keys the rules read (`total_sks`, `prasyarat_ok`, `jadwal_bentrok`); each
field is optional, so an absent key is `none` and `dict.get key default`
is `Option.getD`. -/
structure RegData where
  total_sks : Option Int
  prasyarat_ok : Option Bool
  jadwal_bentrok : Option Bool
deriving DecidableEq, Repr

/-- `SksLimitRule`: carries the `max_sks` bound given to its constructor. -/
structure SksLimitRule where
  max_sks : Int
deriving DecidableEq, Repr

/-- `SksLimitRule.validate`: `total_sks = data.get("total_sks", 0)`; fails
iff `total_sks > max_sks`. -/
def SksLimitRule.validate (self : SksLimitRule) (data : RegData) : Bool :=
  let total_sks := data.total_sks.getD 0
  if total_sks > self.max_sks then false else true

/-- `PrerequisiteRule.validate`: `prasyarat_ok = data.get("prasyarat_ok",
False)`; fails iff that flag is not set. -/
def PrerequisiteRule.validate (data : RegData) : Bool :=
  let prasyarat_ok := data.prasyarat_ok.getD false
  if !prasyarat_ok then false else true

/-- `JadwalBentrokRule.validate`: `bentrok = data.get("jadwal_bentrok",
False)`; fails iff that flag is set. -/
def JadwalBentrokRule.validate (data : RegData) : Bool :=
  let bentrok := data.jadwal_bentrok.getD false
  if bentrok then false else true

/-- `RegistrationService.validate`: runs the injected rules in order,
returning `False` at the first failing rule and `True` after the loop. -/
def RegistrationService.validate (rules : List (RegData → Bool))
    (data : RegData) : Bool :=
  match rules with
  | [] => true
  | rule :: rest =>
    if rule data then RegistrationService.validate rest data else false

/-- `RegistrationService.validate` instrumented with a call counter: the
same loop, additionally returning how many rule `validate` calls were made
(each loop iteration invokes exactly one rule). -/
def RegistrationService.validateCount (rules : List (RegData → Bool))
    (data : RegData) : Bool × Nat :=
  match rules with
  | [] => (true, 0)
  | rule :: rest =>
    if rule data then
      let res := RegistrationService.validateCount rest data
      (res.1, res.2 + 1)
    else
      (false, 1)

/-- `SksLimitRule.validate` in state-passing form: the Python dict is passed
by reference, so the embedding returns the mapping as it stands after the
call next to the boolean result; the body only reads `total_sks`. -/
def SksLimitRule.validateS (self : SksLimitRule) (data : RegData) :
    Bool × RegData :=
  let total_sks := data.total_sks.getD 0
  if total_sks > self.max_sks then (false, data) else (true, data)

/-- `PrerequisiteRule.validate` in state-passing form. -/
def PrerequisiteRule.validateS (data : RegData) : Bool × RegData :=
  let prasyarat_ok := data.prasyarat_ok.getD false
  if !prasyarat_ok then (false, data) else (true, data)

/-- `JadwalBentrokRule.validate` in state-passing form. -/
def JadwalBentrokRule.validateS (data : RegData) : Bool × RegData :=
  let bentrok := data.jadwal_bentrok.getD false
  if bentrok then (false, data) else (true, data)

/-- `RegistrationService.validate` in state-passing form: each rule call
receives the mapping left by the previous call, and the service returns the
mapping as it stands when it answers. -/
def RegistrationService.validateS
    (rules : List (RegData → Bool × RegData)) (data : RegData) :
    Bool × RegData :=
  match rules with
  | [] => (true, data)
  | rule :: rest =>
    let res := rule data
    if res.1 then RegistrationService.validateS rest res.2 else (false, res.2)

/-- The rule `validate` methods actually provided by `latihan_mandiri.py`,
in state-passing form: some `SksLimitRule(max_sks)`, `PrerequisiteRule()`,
or `JadwalBentrokRule()`. -/
def ProvidedRuleS (rule : RegData → Bool × RegData) : Prop :=
  (∃ m : Int, rule = SksLimitRule.validateS ⟨m⟩) ∨
    rule = PrerequisiteRule.validateS ∨ rule = JadwalBentrokRule.validateS

/-! ## Supporting lemmas -/

/-- The loop result is the conjunction of all rule results. -/
lemma registrationService_validate_eq_all (rules : List (RegData → Bool))
    (data : RegData) :
    RegistrationService.validate rules data =
      rules.all (fun rule => rule data) := by
  induction rules with
  | nil => rfl
  | cons rule rest ih =>
    cases h : rule data <;>
      simp [RegistrationService.validate, h, ih]

/-- The instrumented loop: its boolean agrees with the plain loop, and the
number of rule invocations is the position of the first failing rule plus
one, capped at the number of rules (so it is the full length exactly when
no rule fails). -/
lemma registrationService_validateCount_spec (rules : List (RegData → Bool))
    (data : RegData) :
    RegistrationService.validateCount rules data =
      (rules.all (fun rule => rule data),
        min (rules.findIdx (fun rule => !(rule data)) + 1) rules.length) := by
  induction rules with
  | nil => rfl
  | cons rule rest ih =>
    cases h : rule data
    · simp [RegistrationService.validateCount, h, List.findIdx_cons,
        Prod.ext_iff]
    · simp [RegistrationService.validateCount, h, ih, List.findIdx_cons,
        Prod.ext_iff]
      generalize List.findIdx (fun rule => !rule data) rest = k
      omega

/-- Each provided rule, in state-passing form, returns the mapping it was
given. -/
lemma sksLimitRule_validateS_snd (self : SksLimitRule) (data : RegData) :
    (SksLimitRule.validateS self data).2 = data := by
  by_cases h : data.total_sks.getD 0 > self.max_sks <;>
    simp [SksLimitRule.validateS, h]

/-- `PrerequisiteRule.validateS` returns the mapping it was given. -/
lemma prerequisiteRule_validateS_snd (data : RegData) :
    (PrerequisiteRule.validateS data).2 = data := by
  cases h : data.prasyarat_ok.getD false <;>
    simp [PrerequisiteRule.validateS, h]

/-- `JadwalBentrokRule.validateS` returns the mapping it was given. -/
lemma jadwalBentrokRule_validateS_snd (data : RegData) :
    (JadwalBentrokRule.validateS data).2 = data := by
  cases h : data.jadwal_bentrok.getD false <;>
    simp [JadwalBentrokRule.validateS, h]

/-- If every injected rule preserves the mapping, so does the service. -/
lemma registrationService_validateS_snd
    (rules : List (RegData → Bool × RegData))
    (h : ∀ rule ∈ rules, ∀ d : RegData, (rule d).2 = d) :
    ∀ data : RegData, (RegistrationService.validateS rules data).2 = data := by
  induction rules with
  | nil => intro data; rfl
  | cons rule rest ih =>
    intro data
    have hhead : (rule data).2 = data := h rule (List.mem_cons_self _ _) data
    have htail : ∀ r ∈ rest, ∀ d : RegData, (r d).2 = d :=
      fun r hr => h r (List.mem_cons_of_mem _ hr)
    cases hb : (rule data).1
    · simp [RegistrationService.validateS, hb, hhead]
    · simp [RegistrationService.validateS, hb, hhead]
      exact ih htail data

/-! ## Claims -/

/-- C1: for every list of rules and every data mapping,
`RegistrationService.validate` returns true iff every rule's `validate`
returns true, and evaluation short-circuits: the number of rule
invocations is the index of the first failing rule plus one (the full
list length when no rule fails), so rules after the first failure are
never invoked. -/
theorem registration_validate_iff_all_and_short_circuits
    (rules : List (RegData → Bool)) (data : RegData) :
    (RegistrationService.validate rules data = true ↔
      ∀ rule ∈ rules, rule data = true) ∧
    RegistrationService.validateCount rules data =
      (RegistrationService.validate rules data,
        min (rules.findIdx (fun rule => !(rule data)) + 1) rules.length) := by
  refine ⟨?_, ?_⟩
  · rw [registrationService_validate_eq_all]
    simp [List.all_eq_true]
  · rw [registrationService_validateCount_spec,
      registrationService_validate_eq_all]

/-- C2: for every injected processor and every order starting open:
if `process order` is true, `run_checkout` returns true, the order's
status becomes `"paid"`, and the notifier is invoked exactly once; if
`process order` is false, `run_checkout` returns false, the status stays
`"open"`, and the notifier is never invoked. -/
theorem run_checkout_success_and_failure
    (process : Order → Bool) (order : Order) (hopen : order.status = "open") :
    (process order = true →
      (CheckoutService.run_checkout process order).1 = true ∧
      (CheckoutService.run_checkout process order).2.1.status = "paid" ∧
      (CheckoutService.run_checkout process order).2.2.length = 1) ∧
    (process order = false →
      (CheckoutService.run_checkout process order).1 = false ∧
      (CheckoutService.run_checkout process order).2.1.status = "open" ∧
      (CheckoutService.run_checkout process order).2.2.length = 0) := by
  constructor <;> intro h <;>
    simp [CheckoutService.run_checkout, h, hopen]

/-- Witness for C2 at the demo order `Order("Andi", 500000)`, once with a
processor returning true and once with one returning false. -/
theorem run_checkout_success_and_failure_witness :
    ((CheckoutService.run_checkout (fun _ => true) (Order.new "Andi" 500000)).1
        = true ∧
      (CheckoutService.run_checkout (fun _ => true)
          (Order.new "Andi" 500000)).2.1.status = "paid" ∧
      (CheckoutService.run_checkout (fun _ => true)
          (Order.new "Andi" 500000)).2.2.length = 1) ∧
    ((CheckoutService.run_checkout (fun _ => false)
          (Order.new "Andi" 500000)).1 = false ∧
      (CheckoutService.run_checkout (fun _ => false)
          (Order.new "Andi" 500000)).2.1.status = "open" ∧
      (CheckoutService.run_checkout (fun _ => false)
          (Order.new "Andi" 500000)).2.2.length = 0) :=
  ⟨(run_checkout_success_and_failure (fun _ => true)
      (Order.new "Andi" 500000) rfl).1 rfl,
    (run_checkout_success_and_failure (fun _ => false)
      (Order.new "Andi" 500000) rfl).2 rfl⟩

/-- C3: for a mapping whose `total_sks` key is present with value `n`,
`SksLimitRule(max_sks).validate` returns false iff `n > max_sks`,
equivalently returns true iff `n ≤ max_sks`; in particular the boundary
case `n = max_sks` returns true. -/
theorem sks_limit_rule_validate_spec (max_sks n : Int) (data : RegData)
    (h : data.total_sks = some n) :
    (SksLimitRule.validate ⟨max_sks⟩ data = false ↔ n > max_sks) ∧
    (SksLimitRule.validate ⟨max_sks⟩ data = true ↔ n ≤ max_sks) := by
  by_cases hc : n > max_sks
  · simp [SksLimitRule.validate, h, hc]
  · simp [SksLimitRule.validate, h, hc]
    omega

/-- Witness for C3: the spec's worked examples
`SksLimitRule(24).validate({"total_sks": 22}) = True`,
`SksLimitRule(24).validate({"total_sks": 25}) = False`, and the boundary
`total_sks = 24` returning true. -/
theorem sks_limit_rule_validate_spec_witness :
    SksLimitRule.validate ⟨24⟩ ⟨some 22, none, none⟩ = true ∧
    SksLimitRule.validate ⟨24⟩ ⟨some 25, none, none⟩ = false ∧
    SksLimitRule.validate ⟨24⟩ ⟨some 24, none, none⟩ = true :=
  ⟨(sks_limit_rule_validate_spec 24 22 ⟨some 22, none, none⟩ rfl).2.mpr
      (by decide),
    (sks_limit_rule_validate_spec 24 25 ⟨some 25, none, none⟩ rfl).1.mpr
      (by decide),
    (sks_limit_rule_validate_spec 24 24 ⟨some 24, none, none⟩ rfl).2.mpr
      (by decide)⟩

/-- C4: for a mapping whose `prasyarat_ok` key is present with value `b1`,
`PrerequisiteRule.validate` returns exactly `b1`; for a mapping whose
`jadwal_bentrok` key is present with value `b2`, `JadwalBentrokRule.validate`
returns exactly `!b2`. -/
theorem passthrough_rules_validate (data : RegData) (b1 b2 : Bool)
    (h1 : data.prasyarat_ok = some b1) (h2 : data.jadwal_bentrok = some b2) :
    PrerequisiteRule.validate data = b1 ∧
    JadwalBentrokRule.validate data = !b2 := by
  cases b1 <;> cases b2 <;>
    simp [PrerequisiteRule.validate, JadwalBentrokRule.validate, h1, h2]

/-- Witness for C4 at the demo mapping
`{total_sks: 22, prasyarat_ok: True, jadwal_bentrok: False}`. -/
theorem passthrough_rules_validate_witness :
    PrerequisiteRule.validate ⟨some 22, some true, some false⟩ = true ∧
    JadwalBentrokRule.validate ⟨some 22, some true, some false⟩ = !false :=
  passthrough_rules_validate ⟨some 22, some true, some false⟩ true false rfl rfl

/-- C5: `CreditCardProcessor.process` and `QrisProcessor.process` return
true on every order, and consequently `run_checkout` with either provided
processor never takes its failure branch: it always returns true and always
invokes the notifier. -/
theorem provided_processors_always_succeed (order : Order) :
    CreditCardProcessor.process order = true ∧
    QrisProcessor.process order = true ∧
    (CheckoutService.run_checkout CreditCardProcessor.process order).1
      = true ∧
    (CheckoutService.run_checkout QrisProcessor.process order).1 = true ∧
    (CheckoutService.run_checkout
        CreditCardProcessor.process order).2.2.length = 1 ∧
    (CheckoutService.run_checkout QrisProcessor.process order).2.2.length
      = 1 := by
  simp [CreditCardProcessor.process, QrisProcessor.process,
    CheckoutService.run_checkout]

/-- C6: an order constructed without an explicit status starts at
`"open"`, and `run_checkout` — the only operation that touches the
status — either leaves the status as it was or, exactly when the
processor succeeds (and `run_checkout` returns true), sets it to
`"paid"`; no run ever sets it back to `"open"` or to any other value. -/
theorem order_status_default_and_transition
    (name : String) (price : Int) (process : Order → Bool) (order : Order) :
    (Order.new name price).status = "open" ∧
    ((CheckoutService.run_checkout process order).2.1.status = order.status ∨
      ((CheckoutService.run_checkout process order).2.1.status = "paid" ∧
        process order = true ∧
        (CheckoutService.run_checkout process order).1 = true)) := by
  refine ⟨rfl, ?_⟩
  cases h : process order
  · left
    simp [CheckoutService.run_checkout, h]
  · right
    simp [CheckoutService.run_checkout, h]

/-- C7: every rule actually provided by the script — any
`SksLimitRule(max_sks)`, `PrerequisiteRule()`, `JadwalBentrokRule()` —
and `RegistrationService.validate` over any list of such rules leave the
registration mapping exactly as it was. -/
theorem registration_no_mutation
    (rules : List (RegData → Bool × RegData)) (data : RegData) (max_sks : Int)
    (h : ∀ rule ∈ rules, ProvidedRuleS rule) :
    (RegistrationService.validateS rules data).2 = data ∧
    (SksLimitRule.validateS ⟨max_sks⟩ data).2 = data ∧
    (PrerequisiteRule.validateS data).2 = data ∧
    (JadwalBentrokRule.validateS data).2 = data := by
  refine ⟨?_, sksLimitRule_validateS_snd ⟨max_sks⟩ data,
    prerequisiteRule_validateS_snd data, jadwalBentrokRule_validateS_snd data⟩
  refine registrationService_validateS_snd rules ?_ data
  intro rule hr d
  rcases h rule hr with ⟨m, rfl⟩ | rfl | rfl
  · exact sksLimitRule_validateS_snd ⟨m⟩ d
  · exact prerequisiteRule_validateS_snd d
  · exact jadwalBentrokRule_validateS_snd d

/-- Witness for C7: the demo's rule list
`[SksLimitRule(24), PrerequisiteRule(), JadwalBentrokRule()]` run on the
demo mapping leaves it unchanged. -/
theorem registration_no_mutation_witness :
    (RegistrationService.validateS
        [SksLimitRule.validateS ⟨24⟩, PrerequisiteRule.validateS,
          JadwalBentrokRule.validateS]
        ⟨some 22, some true, some false⟩).2 =
      ⟨some 22, some true, some false⟩ ∧
    (SksLimitRule.validateS ⟨24⟩ ⟨some 22, some true, some false⟩).2 =
      ⟨some 22, some true, some false⟩ ∧
    (PrerequisiteRule.validateS ⟨some 22, some true, some false⟩).2 =
      ⟨some 22, some true, some false⟩ ∧
    (JadwalBentrokRule.validateS ⟨some 22, some true, some false⟩).2 =
      ⟨some 22, some true, some false⟩ :=
  registration_no_mutation _ ⟨some 22, some true, some false⟩ 24 (by
    intro rule hr
    simp only [List.mem_cons, List.not_mem_nil, or_false] at hr
    rcases hr with rfl | rfl | rfl
    · exact Or.inl ⟨24, rfl⟩
    · exact Or.inr (Or.inl rfl)
    · exact Or.inr (Or.inr rfl))

/-- C8: `run_checkout` can change only the status field: for every
processor (so in particular for the provided `CreditCardProcessor` and
`QrisProcessor`, with the provided `EmailNotifier`, which never touches
the order) and in both the success and failure branch, the order's
`customer_name` and `total_price` are unchanged after the call. -/
theorem run_checkout_preserves_name_and_price
    (process : Order → Bool) (order : Order) :
    (CheckoutService.run_checkout process order).2.1.customer_name =
      order.customer_name ∧
    (CheckoutService.run_checkout process order).2.1.total_price =
      order.total_price := by
  cases h : process order <;>
    simp [CheckoutService.run_checkout, h]

/-- C9: when the relevant key is absent the rules fall back to asymmetric
defaults: a missing `total_sks` is treated as `0`, so `SksLimitRule`
passes whenever `max_sks ≥ 0`; a missing `prasyarat_ok` is treated as
`False`, so `PrerequisiteRule` fails; a missing `jadwal_bentrok` is
treated as `False`, so `JadwalBentrokRule` passes. -/
theorem missing_key_defaults (max_sks : Int) (data : RegData) :
    (data.total_sks = none →
      (SksLimitRule.validate ⟨max_sks⟩ data =
          SksLimitRule.validate ⟨max_sks⟩ { data with total_sks := some 0 } ∧
        (0 ≤ max_sks → SksLimitRule.validate ⟨max_sks⟩ data = true))) ∧
    (data.prasyarat_ok = none → PrerequisiteRule.validate data = false) ∧
    (data.jadwal_bentrok = none → JadwalBentrokRule.validate data = true) := by
  refine ⟨fun h1 => ⟨?_, fun hmax => ?_⟩, fun h2 => ?_, fun h3 => ?_⟩
  · simp [SksLimitRule.validate, h1]
  · rw [SksLimitRule.validate]
    simp only [h1, Option.getD_none]
    rw [if_neg (by omega)]
  · simp [PrerequisiteRule.validate, h2]
  · simp [JadwalBentrokRule.validate, h3]

/-- Witness for C9 at the empty mapping and `max_sks = 24`. -/
theorem missing_key_defaults_witness :
    SksLimitRule.validate ⟨24⟩ ⟨none, none, none⟩ = true ∧
    PrerequisiteRule.validate ⟨none, none, none⟩ = false ∧
    JadwalBentrokRule.validate ⟨none, none, none⟩ = true :=
  ⟨((missing_key_defaults 24 ⟨none, none, none⟩).1 rfl).2 (by decide),
    (missing_key_defaults 24 ⟨none, none, none⟩).2.1 rfl,
    (missing_key_defaults 24 ⟨none, none, none⟩).2.2 rfl⟩

/-- C10: the status assignment precedes the notifier call, so every order
handed to the notifier's `send` during `run_checkout` already has status
`"paid"` — the notifier never observes an open order. -/
theorem notifier_sees_only_paid_orders
    (process : Order → Bool) (order : Order) :
    (CheckoutService.run_checkout process order).2.2.all
      (fun o => o.status == "paid") = true := by
  cases h : process order <;>
    simp [CheckoutService.run_checkout, h]
